import Mathlib

/-!
Shallow embedding of `src/app/api/endpoints/r2_upload.py` (the media
downloader's R2 upload API): authentication, quality-based download-URL
selection, the parse-and-upload pipeline, object-key derivation, filename
sanitization, and the listing / presigned-URL endpoints.

External effects (the hybrid crawler, the HTTP download, the S3-compatible
store) are injected as `Except`-valued fields of an environment record, and
each handler additionally returns the trace of external calls it performed,
so that claims about "no call is made" are statable.  Python falsiness of
strings (`if not download_url`) is modelled by `truthy`; Python's `x or y`
on optional strings by `pyOr`; bytes by `List Nat`; `datetime.now()` by a
`Date` field of the environment; float rounding `round(x, 2)` by exact
rational arithmetic with half-to-even rounding.
-/

namespace R2Upload

/-- `AUTH_TOKEN = "shipit2026"` (r2_upload.py line 20). -/
def AUTH_TOKEN : String := "shipit2026"

/-- Python truthiness of an optional string: `None` and `""` are falsy. -/
def truthy : Option String → Bool
  | none => false
  | some s => !(s = "")

/-- Python `a or b` on optional strings (used by the quality chains). -/
def pyOr (a b : Option String) : Option String :=
  if truthy a then a else b

/-- Python `f"{x}"` on an optional string: `None` prints as `"None"`. -/
def pyStr : Option String → String
  | none => "None"
  | some s => s

/-- The `video_data` sub-dictionary of a resolved record: the four candidate
download URLs, each possibly missing (`dict.get` returns `None`). -/
structure VideoUrls where
  nwm_video_url_HQ : Option String
  nwm_video_url : Option String
  wm_video_url_HQ : Option String
  wm_video_url : Option String
deriving DecidableEq

/-- The default `{}` for `video_data.get("video_data", {})`. -/
def emptyUrls : VideoUrls := ⟨none, none, none, none⟩

/-- The `author` sub-dictionary (only `nickname` is read). -/
structure Author where
  nickname : Option String
deriving DecidableEq

/-- The `cover_data` sub-dictionary (only `cover` is read). -/
structure CoverData where
  cover : Option String
deriving DecidableEq

/-- A resolved metadata record returned by
`HybridCrawler.hybrid_parsing_single_video`; every key the endpoint reads,
each optional because Python `dict.get` yields `None` when absent.  An
`author` value that is not a dict is modelled as `none` (the code checks
`isinstance(..., dict)`). -/
structure VideoData where
  type : Option String
  video_data : Option VideoUrls
  video_id : Option String
  desc : Option String
  platform : Option String
  create_time : Option String
  author : Option Author
  statistics : Option String
  cover_data : Option CoverData
deriving DecidableEq

/-- Request body model (`ParseAndUploadRequest`, lines 44-50): `quality` is a
plain string field with default `"high"` and no enum validation. -/
structure ParseAndUploadRequest where
  url : String
  quality : String := "high"
deriving DecidableEq

/-- Lines 237-249: the quality-preference chain.  `if/elif/else` on the
`quality` string; every string other than `"high"` and `"low"` lands in the
`else` (watermark) branch. -/
def selectDownloadUrl (quality : String) (video_urls : VideoUrls) : Option String :=
  if quality = "high" then
    pyOr video_urls.nwm_video_url_HQ video_urls.nwm_video_url
  else if quality = "low" then
    pyOr video_urls.nwm_video_url video_urls.nwm_video_url_HQ
  else
    pyOr video_urls.wm_video_url_HQ video_urls.wm_video_url

/-- A calendar date standing for `datetime.now()`. -/
structure Date where
  year : Nat
  month : Nat
  day : Nat
deriving DecidableEq

/-- Two-digit zero padding, as in `strftime`'s `%m` / `%d`. -/
def pad2 (n : Nat) : String := if n < 10 then "0" ++ toString n else toString n

/-- `now.strftime("%Y/%m/%d")` (line 262). -/
def datePath (d : Date) : String :=
  toString d.year ++ "/" ++ pad2 d.month ++ "/" ++ pad2 d.day

/-- Exact half-to-even rounding to an integer, the behaviour of Python's
built-in `round` (modelled over `ℚ`). -/
def roundHalfEven (q : ℚ) : ℤ :=
  let f : ℤ := ⌊q⌋
  let r : ℚ := q - f
  if r < 1 / 2 then f
  else if 1 / 2 < r then f + 1
  else if f % 2 = 0 then f else f + 1

/-- Python `round(q, 2)` over exact rationals. -/
def round2 (q : ℚ) : ℚ := (roundHalfEven (q * 100) : ℚ) / 100

/-- `verify_auth` (lines 36-40): `auth` is `None` when the header is missing
(`Header(None, alias="Auth")`); any value other than the token yields a
401 error, otherwise the header value is returned.  Dead code: this
dependency is never wired to any endpoint in the file — the upload endpoint
declares its own required header and repeats the comparison inline. -/
def verify_auth (auth : Option String) : Except (Nat × String) (Option String) :=
  if auth ≠ some AUTH_TOKEN then Except.error (401, "未认证：无效的 Auth Token")
  else Except.ok auth

/-- The external calls the upload endpoint can perform, in order. -/
inductive Eff where
  | crawlerCall
  | downloadCall (url : String)
  | putObject (key : String) (content : List Nat)
deriving DecidableEq

/-- The injected environment: crawler result, HTTP download, storage put,
the current date, and the configured bucket name.  `Except.error m` stands
for the call raising an exception with message `m`. -/
structure Env where
  crawler : Except String (Option VideoData)
  download : String → Except String (List Nat)
  uploadR2 : String → List Nat → Except String Unit
  now : Date
  bucket_name : Option String

/-- The two failure kinds the endpoint's `try` block can surface:
a `ValueError` (caught as 400) or any other exception (caught as 500). -/
inductive PErr where
  | valueError (msg : String)
  | exn (msg : String)
deriving DecidableEq

/-- The `result` dictionary of a successful run (lines 275-295). -/
structure SuccessData where
  video_id : String
  desc : String
  platform : Option String
  type : Option String
  create_time : Option String
  author : Option String
  statistics : Option String
  cover : Option String
  bucket : Option String
  path : String
  file_size : Nat
  file_size_mb : ℚ
  quality : String
deriving DecidableEq

/-- The `try` block of `parse_and_upload_to_r2` (lines 220-297), returning
its outcome together with the trace of external calls performed. -/
def tryBlock (env : Env) (body : ParseAndUploadRequest) :
    Except PErr SuccessData × List Eff :=
  match env.crawler with
  | Except.error m => (Except.error (PErr.exn m), [Eff.crawlerCall])
  | Except.ok none =>
    (Except.error (PErr.valueError "无法解析视频信息"), [Eff.crawlerCall])
  | Except.ok (some vd) =>
    if vd.type ≠ some "video" then
      (Except.error (PErr.valueError
        ("当前仅支持视频类型，检测到类型: " ++ pyStr vd.type)), [Eff.crawlerCall])
    else
      let video_urls := vd.video_data.getD emptyUrls
      let download_url := selectDownloadUrl body.quality video_urls
      if truthy download_url = false then
        (Except.error (PErr.valueError "无法获取视频下载链接"), [Eff.crawlerCall])
      else
        let u := download_url.getD ""
        match env.download u with
        | Except.error m =>
          (Except.error (PErr.exn m), [Eff.crawlerCall, Eff.downloadCall u])
        | Except.ok video_content =>
          if video_content.isEmpty then
            (Except.error (PErr.valueError "视频下载失败"),
             [Eff.crawlerCall, Eff.downloadCall u])
          else
            let video_id := vd.video_id.getD "unknown"
            let object_key := "douyin/" ++ datePath env.now ++ "/" ++ video_id ++ ".mp4"
            match env.uploadR2 object_key video_content with
            | Except.error m =>
              (Except.error (PErr.exn m),
               [Eff.crawlerCall, Eff.downloadCall u, Eff.putObject object_key video_content])
            | Except.ok _ =>
              (Except.ok
                { video_id := video_id
                  desc := vd.desc.getD ""
                  platform := vd.platform
                  type := vd.type
                  create_time := vd.create_time
                  author := match vd.author with
                    | some a => a.nickname
                    | none => none
                  statistics := vd.statistics
                  cover := (vd.cover_data.getD ⟨none⟩).cover
                  bucket := env.bucket_name
                  path := object_key
                  file_size := video_content.length
                  file_size_mb := round2 ((video_content.length : ℚ) / 1024 / 1024)
                  quality := body.quality },
               [Eff.crawlerCall, Eff.downloadCall u, Eff.putObject object_key video_content])

/-- The HTTP-level outcome of an endpoint call. -/
inductive HandlerResult where
  | ok (code : Nat) (data : SuccessData)
  | httpError (status : Nat) (detail : String)
deriving DecidableEq

/-- `parse_and_upload_to_r2` (lines 174-315): the handler body.  Its `auth`
parameter is a plain string because the endpoint declares `Auth` as a
required header (`auth: str = Header(..., alias="Auth")`, line 177): the
body only ever runs with a header value present.  The inline check rejects
any value other than the token with 401; then the `try` block runs, with
`ValueError` mapped to 400 and any other exception to 500 with prefix
`处理失败: `. -/
def parse_and_upload_to_r2 (auth : String) (env : Env)
    (body : ParseAndUploadRequest) : HandlerResult × List Eff :=
  if auth ≠ AUTH_TOKEN then
    (HandlerResult.httpError 401 "未认证：无效的 Auth Token", [])
  else
    match tryBlock env body with
    | (Except.ok d, tr) => (HandlerResult.ok 200 d, tr)
    | (Except.error (PErr.valueError m), tr) => (HandlerResult.httpError 400 m, tr)
    | (Except.error (PErr.exn m), tr) =>
      (HandlerResult.httpError 500 ("处理失败: " ++ m), tr)

/-- What a request to the upload endpoint produces once FastAPI's request
validation has run: either the framework's 422 validation rejection (the
handler body never executes) or the handler's own result and effect trace. -/
inductive RequestOutcome where
  | validationError (status : Nat)
  | handled (r : HandlerResult × List Eff)
deriving DecidableEq

/-- The upload endpoint at request level.  `Auth` is declared as a required
header (`Header(...)`, line 177), so FastAPI request validation rejects a
request without it with HTTP 422 before the handler body runs; with the
header present the handler runs on its value. -/
def parse_and_upload_endpoint (auth : Option String) (env : Env)
    (body : ParseAndUploadRequest) : RequestOutcome :=
  match auth with
  | none => RequestOutcome.validationError 422
  | some a => RequestOutcome.handled (parse_and_upload_to_r2 a env body)

/-- The external calls a request caused: none when request validation
rejected it, the handler's trace otherwise. -/
def outcomeEffects : RequestOutcome → List Eff
  | RequestOutcome.validationError _ => []
  | RequestOutcome.handled r => r.2

/-- A stored object as returned by the store's `list_objects_v2`
(`Key`, `Size`, `LastModified` — the timestamp modelled by its
`isoformat()` string). -/
structure R2Object where
  key : String
  size : Nat
  last_modified : String
deriving DecidableEq

/-- One entry of the `videos` list built by `list_r2_videos` (lines 350-357). -/
structure VideoEntry where
  key : String
  size : Nat
  size_mb : ℚ
  last_modified : String
deriving DecidableEq

/-- The projection applied to each listed object (lines 350-357). -/
def projectObj (o : R2Object) : VideoEntry :=
  { key := o.key
    size := o.size
    size_mb := round2 ((o.size : ℚ) / 1024 / 1024)
    last_modified := o.last_modified }

/-- The injected S3-compatible store: prefix listing and presigned-URL
generation; `Except.error m` stands for the call raising an exception. -/
structure StoreEnv where
  list_objects_v2 : String → Nat → Except String (List R2Object)
  generate_presigned : String → Nat → Except String String

/-- Outcome of the list endpoint. -/
inductive ListResult where
  | ok (code : Nat) (count : Nat) (videos : List VideoEntry)
  | httpError (status : Nat) (detail : String)
deriving DecidableEq

/-- `list_r2_videos` (lines 323-367): no auth parameter and no auth check;
the store listing is projected entrywise and `count = len(videos)`; any
exception becomes a 500. -/
def list_r2_videos (env : StoreEnv) (pfx : String) (max_keys : Nat) : ListResult :=
  match env.list_objects_v2 pfx max_keys with
  | Except.error m => ListResult.httpError 500 ("获取列表失败: " ++ m)
  | Except.ok objs =>
    let videos := objs.map projectObj
    ListResult.ok 200 videos.length videos

/-- Outcome of the presigned-URL endpoint. -/
inductive UrlResult where
  | ok (code : Nat) (path : String) (download_url : String) (expires_in : Nat)
  | httpError (status : Nat) (detail : String)
deriving DecidableEq

/-- `get_video_download_url` (lines 375-410): no auth parameter and no auth
check; any exception becomes a 500. -/
def get_video_download_url (env : StoreEnv) (path : String) (expires_in : Nat) :
    UrlResult :=
  match env.generate_presigned path expires_in with
  | Except.error m => UrlResult.httpError 500 ("生成链接失败: " ++ m)
  | Except.ok url => UrlResult.ok 200 path url expires_in

/-- The fixed list of characters `sanitize_filename` replaces (line 152). -/
def unsafe_chars : List Char :=
  ['/', '\\', ':', '*', '?', '"', '<', '>', '|', '\n', '\r', '#', '@']

/-- Lines 154-155: each unsafe character is replaced by `'_'` (thirteen
sequential `str.replace(char, "_")` calls amount to a pointwise map). -/
def replaceUnsafe (s : List Char) : List Char :=
  s.map fun c => if c ∈ unsafe_chars then '_' else c

/-- Python `"__" in s`. -/
def hasDoubleUnderscore : List Char → Bool
  | c1 :: c2 :: rest => (c1 = '_' && c2 = '_') || hasDoubleUnderscore (c2 :: rest)
  | _ => false

/-- One pass of Python `s.replace("__", "_")`: non-overlapping matches,
scanned left to right. -/
def replacePairs : List Char → List Char
  | [] => []
  | [c] => [c]
  | c1 :: c2 :: rest =>
    if c1 = '_' && c2 = '_' then '_' :: replacePairs rest
    else c1 :: replacePairs (c2 :: rest)

/-- The loop `while "__" in s: s = s.replace("__", "_")` (lines 158-159),
with explicit fuel; each productive pass strictly shortens the string, so
`s.length` passes always suffice (`collapseFuel_no_double` below). -/
def collapseFuel : Nat → List Char → List Char
  | 0, s => s
  | fuel + 1, s =>
    if hasDoubleUnderscore s then collapseFuel fuel (replacePairs s) else s

/-- The collapse loop run to completion. -/
def collapseUnderscores (s : List Char) : List Char := collapseFuel s.length s

/-- Membership in the strip set of `s.strip("_ ")`. -/
def isStripChar (c : Char) : Bool := c = '_' || c = ' '

/-- Python `s.strip("_ ")` (line 160): drop leading and trailing underscores
and spaces. -/
def stripUnderscoreSpace (s : List Char) : List Char :=
  ((s.dropWhile isStripChar).reverse.dropWhile isStripChar).reverse

/-- `sanitize_filename` (lines 137-166): empty input falls back to
`"video"`; unsafe characters are replaced, double underscores collapsed,
ends stripped, the result truncated to `max_length`, and an empty result
falls back to `"video"`. -/
def sanitize_filename (desc : String) (max_length : Nat := 50) : String :=
  if desc = "" then "video"
  else
    let safe1 := replaceUnsafe desc.toList
    let safe2 := collapseUnderscores safe1
    let safe3 := stripUnderscoreSpace safe2
    let safe4 := if max_length < safe3.length then safe3.take max_length else safe3
    if safe4.isEmpty then "video" else String.mk safe4

/-- A fully-populated resolved video record used as a concrete test input. -/
def sampleVideoData : VideoData where
  type := some "video"
  video_data := some ⟨some "https://cdn/hq", some "https://cdn/std",
    some "https://cdn/wmhq", some "https://cdn/wm"⟩
  video_id := some "123"
  desc := some "hello world"
  platform := some "douyin"
  create_time := some "2026-01-04 00:00:00"
  author := some ⟨some "alice"⟩
  statistics := none
  cover_data := some ⟨some "https://cdn/cover"⟩

/-- A concrete environment in which every external call succeeds; the
download returns three bytes and the clock reads 2026-01-04. -/
def sampleEnv : Env where
  crawler := Except.ok (some sampleVideoData)
  download := fun _ => Except.ok [7, 7, 7]
  uploadR2 := fun _ _ => Except.ok ()
  now := ⟨2026, 1, 4⟩
  bucket_name := some "douyin-videos"

/-- A concrete request body. -/
def sampleBody : ParseAndUploadRequest := { url := "https://v.douyin.com/L4FJNR3/" }

/-- Environment whose crawler resolves nothing. -/
def envNoParse : Env := { sampleEnv with crawler := Except.ok none }

/-- A resolved record whose content type is `"image"`, not `"video"`. -/
def vdImage : VideoData := { sampleVideoData with type := some "image" }

/-- Environment whose crawler resolves a non-video record. -/
def envImage : Env := { sampleEnv with crawler := Except.ok (some vdImage) }

/-- A resolved video record carrying no download URLs at all. -/
def vdNoUrls : VideoData := { sampleVideoData with video_data := some emptyUrls }

/-- Environment whose crawler resolves a video with no download URLs. -/
def envNoUrls : Env := { sampleEnv with crawler := Except.ok (some vdNoUrls) }

/-- A concrete one-object store listing. -/
def sampleObjects : List R2Object :=
  [⟨"douyin/2026/01/04/123.mp4", 3, "2026-01-04T00:00:00"⟩]

/-- A concrete store whose listing and presign calls succeed. -/
def sampleStore : StoreEnv where
  list_objects_v2 := fun _ _ => Except.ok sampleObjects
  generate_presigned := fun _ _ => Except.ok "https://example.com/presigned"

/-! ## Support lemmas -/

theorem truthy_eq_isSome {a : Option String} (h : a ≠ some "") : truthy a = a.isSome := by
  cases a with
  | none => rfl
  | some s =>
    have hs : s ≠ "" := fun hcon => h (by rw [hcon])
    simp [truthy, hs]

theorem replacePairs_subset : ∀ (s : List Char) (c : Char),
    c ∈ replacePairs s → c = '_' ∨ c ∈ s := by
  intro s
  induction s using replacePairs.induct with
  | case1 => intro c hc; simp [replacePairs] at hc
  | case2 c1 => intro c hc; simp [replacePairs] at hc; simp [hc]
  | case3 c1 c2 rest hif ih =>
    intro c hc
    simp only [replacePairs, hif, if_true] at hc
    rcases List.mem_cons.mp hc with h | h
    · left; exact h
    · rcases ih c h with h2 | h2
      · left; exact h2
      · right; simp [h2]
  | case4 c1 c2 rest hif ih =>
    intro c hc
    simp only [replacePairs, hif, if_false] at hc
    rcases List.mem_cons.mp hc with h | h
    · right; simp [h]
    · rcases ih c h with h2 | h2
      · left; exact h2
      · right; simp [List.mem_cons] at h2 ⊢; tauto

theorem replacePairs_length_le : ∀ s : List Char, (replacePairs s).length ≤ s.length := by
  intro s
  induction s using replacePairs.induct with
  | case1 => simp [replacePairs]
  | case2 c1 => simp [replacePairs]
  | case3 c1 c2 rest hif ih =>
    simp only [replacePairs, hif, if_true, List.length_cons]
    omega
  | case4 c1 c2 rest hif ih =>
    simp only [replacePairs, hif, Bool.false_eq_true, if_false, List.length_cons] at *
    omega

theorem replacePairs_length_lt : ∀ s : List Char, hasDoubleUnderscore s = true →
    (replacePairs s).length < s.length := by
  intro s
  induction s using replacePairs.induct with
  | case1 => intro h; simp [hasDoubleUnderscore] at h
  | case2 c1 => intro h; simp [hasDoubleUnderscore] at h
  | case3 c1 c2 rest hif ih =>
    intro _
    have := replacePairs_length_le rest
    simp only [replacePairs, hif, if_true, List.length_cons]
    omega
  | case4 c1 c2 rest hif ih =>
    intro h
    have h2 : hasDoubleUnderscore (c2 :: rest) = true := by
      simp only [hasDoubleUnderscore, hif, Bool.false_or] at h
      exact h
    have := ih h2
    simp only [replacePairs, hif, Bool.false_eq_true, if_false, List.length_cons] at *
    omega

theorem collapseFuel_no_double : ∀ (fuel : Nat) (s : List Char), s.length ≤ fuel →
    hasDoubleUnderscore (collapseFuel fuel s) = false := by
  intro fuel
  induction fuel with
  | zero =>
    intro s hs
    have : s = [] := List.length_eq_zero.mp (Nat.le_zero.mp hs)
    subst this
    simp [collapseFuel, hasDoubleUnderscore]
  | succ n ih =>
    intro s hs
    by_cases hd : hasDoubleUnderscore s = true
    · have hlt := replacePairs_length_lt s hd
      simp only [collapseFuel, hd, if_true]
      exact ih _ (by omega)
    · simp only [collapseFuel, hd, if_false]
      simpa using hd

theorem collapseFuel_subset : ∀ (fuel : Nat) (s : List Char) (c : Char),
    c ∈ collapseFuel fuel s → c = '_' ∨ c ∈ s := by
  intro fuel
  induction fuel with
  | zero => intro s c hc; right; simpa [collapseFuel] using hc
  | succ n ih =>
    intro s c hc
    by_cases hd : hasDoubleUnderscore s = true
    · simp only [collapseFuel, hd, if_true] at hc
      rcases ih _ c hc with h | h
      · left; exact h
      · exact replacePairs_subset s c h
    · simp only [collapseFuel, hd, if_false] at hc
      right; exact hc

theorem hasDouble_cons (a : Char) (s : List Char) (h : hasDoubleUnderscore s = true) :
    hasDoubleUnderscore (a :: s) = true := by
  cases s with
  | nil => simp [hasDoubleUnderscore] at h
  | cons b rest => simp [hasDoubleUnderscore, h]

theorem hasDouble_infix_iff (s : List Char) :
    hasDoubleUnderscore s = true ↔ ['_', '_'] <:+: s := by
  constructor
  · intro h
    induction s with
    | nil => simp [hasDoubleUnderscore] at h
    | cons c rest ih =>
      cases rest with
      | nil => simp [hasDoubleUnderscore] at h
      | cons c2 rest2 =>
        simp only [hasDoubleUnderscore, Bool.or_eq_true, Bool.and_eq_true,
          decide_eq_true_eq] at h
        rcases h with ⟨rfl, rfl⟩ | h
        · exact ⟨[], rest2, rfl⟩
        · exact List.infix_cons (ih h)
  · rintro ⟨u, v, rfl⟩
    induction u with
    | nil => simp [hasDoubleUnderscore]
    | cons a u2 ih => exact hasDouble_cons a _ ih

theorem no_double_of_infix {t s : List Char} (h : t <:+: s)
    (hs : hasDoubleUnderscore s = false) : hasDoubleUnderscore t = false := by
  by_contra hcon
  have ht : hasDoubleUnderscore t = true := by
    cases hval : hasDoubleUnderscore t
    · exact absurd hval hcon
    · rfl
  have : hasDoubleUnderscore s = true :=
    (hasDouble_infix_iff s).mpr (((hasDouble_infix_iff t).mp ht).trans h)
  simp [this] at hs

theorem strip_infix (s : List Char) : stripUnderscoreSpace s <:+: s := by
  unfold stripUnderscoreSpace
  have h1 : s.dropWhile isStripChar <:+ s := List.dropWhile_suffix isStripChar
  have h2 : (s.dropWhile isStripChar).reverse.dropWhile isStripChar <:+
      (s.dropWhile isStripChar).reverse := List.dropWhile_suffix isStripChar
  have h3 : ((s.dropWhile isStripChar).reverse.dropWhile isStripChar).reverse <+:
      s.dropWhile isStripChar := by
    have := List.reverse_prefix.mpr h2
    simpa using this
  exact h3.isInfix.trans h1.isInfix

theorem replaceUnsafe_no_unsafe (s : List Char) :
    ∀ c ∈ replaceUnsafe s, c ∉ unsafe_chars := by
  intro c hc
  simp only [replaceUnsafe, List.mem_map] at hc
  obtain ⟨x, _, hx⟩ := hc
  by_cases hmem : x ∈ unsafe_chars
  · simp only [hmem, if_true] at hx
    subst hx; decide
  · simp only [hmem, if_false] at hx
    subst hx; exact hmem

theorem sanitize_props (desc : String) (max_length : Nat) :
    (∀ c ∈ (sanitize_filename desc max_length).toList, c ∉ unsafe_chars) ∧
    hasDoubleUnderscore (sanitize_filename desc max_length).toList = false ∧
    ((sanitize_filename desc max_length).length ≤ max_length ∨
      sanitize_filename desc max_length = "video") ∧
    sanitize_filename desc max_length ≠ "" := by
  by_cases hd : desc = ""
  · refine ⟨?_, ?_, Or.inr ?_, ?_⟩ <;> simp [sanitize_filename, hd]
    · decide
    · decide
  · have hred : sanitize_filename desc max_length =
        (let safe1 := replaceUnsafe desc.toList
         let safe2 := collapseUnderscores safe1
         let safe3 := stripUnderscoreSpace safe2
         let safe4 := if max_length < safe3.length then safe3.take max_length else safe3
         if safe4.isEmpty then "video" else String.mk safe4) := by
      simp [sanitize_filename, hd]
    set safe1 := replaceUnsafe desc.toList with hs1
    set safe2 := collapseUnderscores safe1 with hs2
    set safe3 := stripUnderscoreSpace safe2 with hs3
    set safe4 := (if max_length < safe3.length then safe3.take max_length else safe3) with hs4
    have hc2 : ∀ c ∈ safe2, c ∉ unsafe_chars := by
      intro c hc
      rcases collapseFuel_subset safe1.length safe1 c hc with h | h
      · subst h; decide
      · exact replaceUnsafe_no_unsafe desc.toList c h
    have hinf3 : safe3 <:+: safe2 := strip_infix safe2
    have hinf4 : safe4 <:+: safe3 := by
      rw [hs4]
      by_cases hlen : max_length < safe3.length
      · simp only [hlen, if_true]
        exact ( List.take_prefix max_length safe3).isInfix
      · simp only [hlen, if_false]
        exact List.infix_refl _
    have hc4 : ∀ c ∈ safe4, c ∉ unsafe_chars := fun c hc =>
      hc2 c (hinf3.subset (hinf4.subset hc))
    have hnd2 : hasDoubleUnderscore safe2 = false :=
      collapseFuel_no_double safe1.length safe1 (Nat.le_refl _)
    have hnd4 : hasDoubleUnderscore safe4 = false :=
      no_double_of_infix (hinf4.trans hinf3) hnd2
    have hlen4 : safe4.length ≤ max_length ∨ safe4 = safe3 := by
      rw [hs4]
      by_cases hlen : max_length < safe3.length
      · simp only [hlen, if_true]
        left
        simp [List.length_take]
      · right
        simp only [hlen, if_false]
    by_cases hemp : safe4.isEmpty
    · have hfin : sanitize_filename desc max_length = "video" := by
        rw [hred]; simp [hemp]
      refine ⟨?_, ?_, Or.inr hfin, ?_⟩ <;> rw [hfin]
      · decide
      · decide
      · decide
    · have hfin : sanitize_filename desc max_length = String.mk safe4 := by
        rw [hred]; simp [hemp]
      have htl : (sanitize_filename desc max_length).toList = safe4 := by
        rw [hfin]; rfl
      refine ⟨?_, ?_, ?_, ?_⟩
      · rw [htl]; exact hc4
      · rw [htl]; exact hnd4
      · rcases hlen4 with h | h
        · left
          rw [hfin]
          simpa [String.length] using h
        · by_cases hlen : max_length < safe3.length
          · exfalso
            rw [hs4] at h
            simp only [hlen, if_true] at h
            have := congrArg List.length h
            simp [List.length_take] at this
            omega
          · left
            rw [hfin]
            have : safe4.length ≤ max_length := by
              rw [h]; omega
            simpa [String.length] using this
      · rw [hfin]
        intro hcon
        have : safe4 = [] := by
          have := congrArg String.toList hcon
          simpa using this
        rw [List.isEmpty_iff] at hemp
        exact hemp this

theorem handler_ok_inv {auth : String} {env : Env} {body : ParseAndUploadRequest}
    {d : SuccessData} {tr : List Eff}
    (h : parse_and_upload_to_r2 auth env body = (HandlerResult.ok 200 d, tr)) :
    auth = AUTH_TOKEN ∧ tryBlock env body = (Except.ok d, tr) := by
  by_cases ha : auth = AUTH_TOKEN
  · refine ⟨ha, ?_⟩
    rw [parse_and_upload_to_r2, if_neg (by simp [ha])] at h
    rcases htb : tryBlock env body with ⟨res, tr2⟩
    rw [htb] at h
    cases res with
    | ok d2 => simp_all
    | error e => cases e <;> simp_all
  · rw [parse_and_upload_to_r2, if_pos ha] at h
    simp at h

theorem tryBlock_ok_inv {env : Env} {body : ParseAndUploadRequest}
    {d : SuccessData} {tr : List Eff}
    (h : tryBlock env body = (Except.ok d, tr)) :
    ∃ vd u content,
      env.crawler = Except.ok (some vd) ∧
      vd.type = some "video" ∧
      selectDownloadUrl body.quality (vd.video_data.getD emptyUrls) = some u ∧
      env.download u = Except.ok content ∧
      content ≠ [] ∧
      d.video_id = vd.video_id.getD "unknown" ∧
      d.path = "douyin/" ++ datePath env.now ++ "/" ++ vd.video_id.getD "unknown" ++ ".mp4" ∧
      d.file_size = content.length ∧
      d.file_size_mb = round2 ((content.length : ℚ) / 1024 / 1024) ∧
      d.quality = body.quality ∧
      tr = [Eff.crawlerCall, Eff.downloadCall u, Eff.putObject d.path content] := by
  rw [tryBlock] at h
  rcases hc : env.crawler with m | ovd
  · simp [hc] at h
  · cases ovd with
    | none => simp [hc] at h
    | some vd =>
      simp only [hc] at h
      by_cases hty : vd.type = some "video"
      · rw [if_neg (by simp [hty])] at h
        rcases hsel : selectDownloadUrl body.quality (vd.video_data.getD emptyUrls) with
          _ | u
        · simp [hsel, truthy] at h
        · by_cases hu : u = ""
          · simp [hsel, hu, truthy] at h
          · simp only [hsel, Option.getD_some] at h
            rw [if_neg (by simp [truthy, hu])] at h
            rcases hdl : env.download u with m | content
            · simp [hdl] at h
            · simp only [hdl] at h
              by_cases hemp : content.isEmpty
              · rw [if_pos hemp] at h
                simp at h
              · rw [if_neg hemp] at h
                rcases hup : env.uploadR2
                    ("douyin/" ++ datePath env.now ++ "/" ++ vd.video_id.getD "unknown" ++ ".mp4")
                    content with m | u2
                · simp [hup] at h
                · simp only [hup, Prod.mk.injEq, Except.ok.injEq] at h
                  obtain ⟨hdata, htr⟩ := h
                  refine ⟨vd, u, content, rfl, hty, hsel, hdl, ?_, ?_, ?_, ?_, ?_, ?_, ?_⟩
                  · intro hcon
                    rw [hcon] at hemp
                    simp at hemp
                  · rw [← hdata]
                  · rw [← hdata]
                  · rw [← hdata]
                  · rw [← hdata]
                  · rw [← hdata]
                  · rw [← hdata, ← htr]
      · rw [if_pos (by simp [hty])] at h
        simp at h

theorem tryBlock_trace_nodup (env : Env) (body : ParseAndUploadRequest) :
    (tryBlock env body).2.Nodup := by
  simp only [tryBlock]
  repeat' split
  all_goals simp

theorem tryBlock_trace_desc_indep (env : Env) (vd : VideoData) (dsc : Option String)
    (body : ParseAndUploadRequest) :
    (tryBlock { env with crawler := Except.ok (some vd) } body).2 =
    (tryBlock { env with crawler := Except.ok (some { vd with desc := dsc }) } body).2 := by
  cases vd
  simp only [tryBlock]
  repeat' split
  all_goals simp_all

/-! ## Claim theorems -/

/-- C1 (amended): a request whose `Auth` header is present but not equal to
the shared secret `"shipit2026"` fails with the 401 authentication error
and an empty effect trace — no crawler call, download or storage write; a
request whose `Auth` header is missing never reaches the handler: the
required-header declaration makes request validation reject it with 422,
likewise without any external call. -/
theorem auth_gate_rejects_bad_token (a : String) (env : Env)
    (body : ParseAndUploadRequest) (h : a ≠ AUTH_TOKEN) :
    parse_and_upload_endpoint (some a) env body =
      RequestOutcome.handled
        (HandlerResult.httpError 401 "未认证：无效的 Auth Token", []) ∧
    outcomeEffects (parse_and_upload_endpoint (some a) env body) = [] ∧
    parse_and_upload_endpoint none env body = RequestOutcome.validationError 422 ∧
    outcomeEffects (parse_and_upload_endpoint none env body) = [] := by
  have hh : parse_and_upload_to_r2 a env body =
      (HandlerResult.httpError 401 "未认证：无效的 Auth Token", []) := by
    rw [parse_and_upload_to_r2, if_pos h]
  refine ⟨?_, ?_, rfl, rfl⟩
  · simp only [parse_and_upload_endpoint, hh]
  · simp only [parse_and_upload_endpoint, hh, outcomeEffects]

/-- Witness for C1 at a present-but-wrong header value. -/
theorem auth_gate_rejects_bad_token_app :
    parse_and_upload_endpoint (some "wrong-token") sampleEnv sampleBody =
      RequestOutcome.handled
        (HandlerResult.httpError 401 "未认证：无效的 Auth Token", []) ∧
    outcomeEffects
      (parse_and_upload_endpoint (some "wrong-token") sampleEnv sampleBody) = [] ∧
    parse_and_upload_endpoint none sampleEnv sampleBody =
      RequestOutcome.validationError 422 ∧
    outcomeEffects (parse_and_upload_endpoint none sampleEnv sampleBody) = [] :=
  auth_gate_rejects_bad_token "wrong-token" sampleEnv sampleBody (by decide)

/-- Counterexample to C1 as stated: with the `Auth` header missing, the
request is rejected by request validation with HTTP 422 — the handler and
its 401 authentication failure are never reached. -/
theorem missing_header_is_422_not_401 :
    parse_and_upload_endpoint none sampleEnv sampleBody =
      RequestOutcome.validationError 422 ∧
    parse_and_upload_endpoint none sampleEnv sampleBody ≠
      RequestOutcome.handled
        (HandlerResult.httpError 401 "未认证：无效的 Auth Token", []) :=
  ⟨rfl, by decide⟩

/-- C2: for any resolved record whose URL values, when present, are
non-empty strings, the selected download URL follows the documented
preference chain: high → no-watermark-HQ else no-watermark-standard,
low → no-watermark-standard else no-watermark-HQ, watermark →
watermark-HQ else watermark-standard; in particular, if quality "high" is
requested and only the standard no-watermark URL exists, it is chosen. -/
theorem quality_preference_chain (u : VideoUrls)
    (h1 : u.nwm_video_url_HQ ≠ some "") (h2 : u.nwm_video_url ≠ some "")
    (h3 : u.wm_video_url_HQ ≠ some "") (h4 : u.wm_video_url ≠ some "") :
    (selectDownloadUrl "high" u =
      if u.nwm_video_url_HQ.isSome then u.nwm_video_url_HQ else u.nwm_video_url) ∧
    (selectDownloadUrl "low" u =
      if u.nwm_video_url.isSome then u.nwm_video_url else u.nwm_video_url_HQ) ∧
    (selectDownloadUrl "watermark" u =
      if u.wm_video_url_HQ.isSome then u.wm_video_url_HQ else u.wm_video_url) ∧
    (∀ s, u.nwm_video_url_HQ = none → u.nwm_video_url = some s →
      selectDownloadUrl "high" u = some s) := by
  refine ⟨?_, ?_, ?_, ?_⟩
  · simp [selectDownloadUrl, pyOr, truthy_eq_isSome h1]
  · simp [selectDownloadUrl, pyOr, truthy_eq_isSome h2]
  · simp [selectDownloadUrl, pyOr, truthy_eq_isSome h3]
  · intro s h5 h6
    simp [selectDownloadUrl, pyOr, h5, h6, truthy]

/-- Witness for C2: quality "high" with only the standard no-watermark URL. -/
theorem quality_preference_chain_app :
    selectDownloadUrl "high" ⟨none, some "https://cdn/std", none, none⟩ =
      some "https://cdn/std" :=
  (quality_preference_chain ⟨none, some "https://cdn/std", none, none⟩
    (by decide) (by decide) (by decide) (by decide)).2.2.2 "https://cdn/std" rfl rfl

/-- C3: with valid auth, `parse_and_upload` fails with HTTP 400 when the
crawler resolves nothing, when the resolved type is not "video" (and the
message names the detected type), or when the quality chain yields no
truthy URL; in every such case the trace is exactly the crawler call — no
download and no storage write happens. -/
theorem validation_rejections (env : Env) (body : ParseAndUploadRequest) (vd : VideoData) :
    (env.crawler = Except.ok none →
      parse_and_upload_to_r2 AUTH_TOKEN env body =
        (HandlerResult.httpError 400 "无法解析视频信息", [Eff.crawlerCall])) ∧
    (env.crawler = Except.ok (some vd) → vd.type ≠ some "video" →
      parse_and_upload_to_r2 AUTH_TOKEN env body =
        (HandlerResult.httpError 400
          ("当前仅支持视频类型，检测到类型: " ++ pyStr vd.type), [Eff.crawlerCall])) ∧
    (env.crawler = Except.ok (some vd) → vd.type = some "video" →
      truthy (selectDownloadUrl body.quality (vd.video_data.getD emptyUrls)) = false →
      parse_and_upload_to_r2 AUTH_TOKEN env body =
        (HandlerResult.httpError 400 "无法获取视频下载链接", [Eff.crawlerCall])) := by
  refine ⟨?_, ?_, ?_⟩
  · intro hc
    have htb : tryBlock env body =
        (Except.error (PErr.valueError "无法解析视频信息"), [Eff.crawlerCall]) := by
      rw [tryBlock, hc]
    rw [parse_and_upload_to_r2, if_neg (by simp), htb]
  · intro hc hty
    have htb : tryBlock env body =
        (Except.error (PErr.valueError
          ("当前仅支持视频类型，检测到类型: " ++ pyStr vd.type)), [Eff.crawlerCall]) := by
      simp only [tryBlock, hc]
      rw [if_pos hty]
    rw [parse_and_upload_to_r2, if_neg (by simp), htb]
  · intro hc hty hsel
    have htb : tryBlock env body =
        (Except.error (PErr.valueError "无法获取视频下载链接"), [Eff.crawlerCall]) := by
      simp only [tryBlock, hc]
      rw [if_neg (by simp [hty]), if_pos hsel]
    rw [parse_and_upload_to_r2, if_neg (by simp), htb]

/-- Witness for C3 on three concrete environments: crawler resolves
nothing, crawler resolves an image, crawler resolves a video without URLs. -/
theorem validation_rejections_app :
    parse_and_upload_to_r2 AUTH_TOKEN envNoParse sampleBody =
      (HandlerResult.httpError 400 "无法解析视频信息", [Eff.crawlerCall]) ∧
    parse_and_upload_to_r2 AUTH_TOKEN envImage sampleBody =
      (HandlerResult.httpError 400
        ("当前仅支持视频类型，检测到类型: " ++ pyStr vdImage.type), [Eff.crawlerCall]) ∧
    parse_and_upload_to_r2 AUTH_TOKEN envNoUrls sampleBody =
      (HandlerResult.httpError 400 "无法获取视频下载链接", [Eff.crawlerCall]) :=
  ⟨(validation_rejections envNoParse sampleBody sampleVideoData).1 rfl,
   (validation_rejections envImage sampleBody vdImage).2.1 rfl (by decide),
   (validation_rejections envNoUrls sampleBody vdNoUrls).2.2 rfl rfl (by decide)⟩

/-- C4: on every successful upload the stored object key is
`douyin/{yyyy}/{mm}/{dd}/{video_id}.mp4` with zero-padded month and day
(`pad2`); in particular for video id "123" on 2026-01-04 the key is
`douyin/2026/01/04/123.mp4`. -/
theorem object_key_format (auth : String) (env : Env)
    (body : ParseAndUploadRequest) (d : SuccessData) (tr : List Eff)
    (h : parse_and_upload_to_r2 auth env body = (HandlerResult.ok 200 d, tr)) :
    (∃ vd, env.crawler = Except.ok (some vd) ∧
      d.path = "douyin/" ++ datePath env.now ++ "/" ++ vd.video_id.getD "unknown" ++ ".mp4") ∧
    (∀ n, n < 10 → pad2 n = "0" ++ toString n) ∧
    datePath ⟨2026, 1, 4⟩ = "2026/01/04" ∧
    "douyin/" ++ datePath ⟨2026, 1, 4⟩ ++ "/" ++ "123" ++ ".mp4" =
      "douyin/2026/01/04/123.mp4" := by
  obtain ⟨-, htb⟩ := handler_ok_inv h
  obtain ⟨vd, u, content, hc, -, -, -, -, -, hpath, -, -, -, -⟩ := tryBlock_ok_inv htb
  refine ⟨⟨vd, hc, hpath⟩, ?_, by decide, by decide⟩
  intro n hn
  rw [pad2, if_pos hn]

/-- Witness for C4: the sample run stores at `douyin/2026/01/04/123.mp4`. -/
theorem object_key_format_app :
    ∃ d tr, parse_and_upload_to_r2 AUTH_TOKEN sampleEnv sampleBody =
        (HandlerResult.ok 200 d, tr) ∧
      ((∃ vd, sampleEnv.crawler = Except.ok (some vd) ∧
          d.path = "douyin/" ++ datePath sampleEnv.now ++ "/" ++
            vd.video_id.getD "unknown" ++ ".mp4") ∧
       (∀ n, n < 10 → pad2 n = "0" ++ toString n) ∧
       datePath ⟨2026, 1, 4⟩ = "2026/01/04" ∧
       "douyin/" ++ datePath ⟨2026, 1, 4⟩ ++ "/" ++ "123" ++ ".mp4" =
         "douyin/2026/01/04/123.mp4") ∧
      d.path = "douyin/2026/01/04/123.mp4" :=
  ⟨_, _, rfl, object_key_format AUTH_TOKEN sampleEnv sampleBody _ _ rfl, rfl⟩

/-- C5: every outcome of `parse_and_upload` is exactly one of: 401 with the
fixed auth message, 400 carrying a `ValueError` message verbatim, 500 with
`处理失败: ` followed by the exception text, or a 200 success; and the trace
of external calls never repeats a call (nothing is retried). -/
theorem failure_taxonomy (auth : String) (env : Env)
    (body : ParseAndUploadRequest) :
    ((parse_and_upload_to_r2 auth env body).1 =
        HandlerResult.httpError 401 "未认证：无效的 Auth Token" ∨
     (∃ m, (parse_and_upload_to_r2 auth env body).1 = HandlerResult.httpError 400 m ∧
        (tryBlock env body).1 = Except.error (PErr.valueError m)) ∨
     (∃ m, (parse_and_upload_to_r2 auth env body).1 =
        HandlerResult.httpError 500 ("处理失败: " ++ m) ∧
        (tryBlock env body).1 = Except.error (PErr.exn m)) ∨
     (∃ d, (parse_and_upload_to_r2 auth env body).1 = HandlerResult.ok 200 d)) ∧
    (parse_and_upload_to_r2 auth env body).2.Nodup := by
  by_cases ha : auth = AUTH_TOKEN
  · have heq : parse_and_upload_to_r2 auth env body =
        (match tryBlock env body with
         | (Except.ok d, tr) => (HandlerResult.ok 200 d, tr)
         | (Except.error (PErr.valueError m), tr) => (HandlerResult.httpError 400 m, tr)
         | (Except.error (PErr.exn m), tr) =>
           (HandlerResult.httpError 500 ("处理失败: " ++ m), tr)) := by
      rw [parse_and_upload_to_r2, if_neg (by simp [ha])]
    have hnd := tryBlock_trace_nodup env body
    rcases htb : tryBlock env body with ⟨res, tr⟩
    rw [htb] at heq hnd
    cases res with
    | ok d =>
      exact ⟨Or.inr (Or.inr (Or.inr ⟨d, by rw [heq]⟩)), by rw [heq]; exact hnd⟩
    | error e =>
      cases e with
      | valueError m =>
        exact ⟨Or.inr (Or.inl ⟨m, by rw [heq], rfl⟩), by rw [heq]; exact hnd⟩
      | exn m =>
        exact ⟨Or.inr (Or.inr (Or.inl ⟨m, by rw [heq], rfl⟩)),
          by rw [heq]; exact hnd⟩
  · have heq : parse_and_upload_to_r2 auth env body =
        (HandlerResult.httpError 401 "未认证：无效的 Auth Token", []) := by
      rw [parse_and_upload_to_r2, if_pos ha]
    exact ⟨Or.inl (by rw [heq]), by rw [heq]; exact List.nodup_nil⟩

/-- C6: on every successful response, `file_size` equals the byte length of
the downloaded content and `file_size_mb` is that length divided by 1024
twice and rounded (half-to-even) to two decimal places. -/
theorem file_size_reporting (auth : String) (env : Env)
    (body : ParseAndUploadRequest) (d : SuccessData) (tr : List Eff)
    (h : parse_and_upload_to_r2 auth env body = (HandlerResult.ok 200 d, tr)) :
    ∃ u content, env.download u = Except.ok content ∧
      Eff.downloadCall u ∈ tr ∧
      Eff.putObject d.path content ∈ tr ∧
      d.file_size = content.length ∧
      d.file_size_mb = round2 ((content.length : ℚ) / 1024 / 1024) := by
  obtain ⟨-, htb⟩ := handler_ok_inv h
  obtain ⟨vd, u, content, -, -, -, hdl, -, -, -, hfs, hmb, -, htr⟩ := tryBlock_ok_inv htb
  exact ⟨u, content, hdl, by rw [htr]; simp, by rw [htr]; simp, hfs, hmb⟩

/-- Witness for C6: a three-byte stub download reports `file_size = 3`. -/
theorem file_size_reporting_app :
    ∃ d tr, parse_and_upload_to_r2 AUTH_TOKEN sampleEnv sampleBody =
        (HandlerResult.ok 200 d, tr) ∧
      (∃ u content, sampleEnv.download u = Except.ok content ∧
        Eff.downloadCall u ∈ tr ∧
        Eff.putObject d.path content ∈ tr ∧
        d.file_size = content.length ∧
        d.file_size_mb = round2 ((content.length : ℚ) / 1024 / 1024)) ∧
      d.file_size = 3 :=
  ⟨_, _, rfl, file_size_reporting AUTH_TOKEN sampleEnv sampleBody _ _ rfl, rfl⟩

/-- C7: when the store's prefix listing succeeds and honours `MaxKeys`
(returns at most `max_keys` objects), `list_videos` returns exactly the
entrywise projection of the listing, its reported count is the length of
the videos list, and the number of entries never exceeds `max_keys`. -/
theorem list_videos_capped (env : StoreEnv) (pfx : String) (max_keys : Nat)
    (objs : List R2Object)
    (hls : env.list_objects_v2 pfx max_keys = Except.ok objs)
    (hcap : objs.length ≤ max_keys) :
    list_r2_videos env pfx max_keys =
      ListResult.ok 200 (objs.map projectObj).length (objs.map projectObj) ∧
    (objs.map projectObj).length ≤ max_keys := by
  constructor
  · rw [list_r2_videos, hls]
  · simpa using hcap

/-- Witness for C7 on a one-object store with `max_keys = 100`. -/
theorem list_videos_capped_app :
    list_r2_videos sampleStore "douyin/" 100 =
      ListResult.ok 200 (sampleObjects.map projectObj).length
        (sampleObjects.map projectObj) ∧
    (sampleObjects.map projectObj).length ≤ 100 :=
  list_videos_capped sampleStore "douyin/" 100 sampleObjects rfl (by decide)

/-- C8 (amended): for every description and maximum length,
`sanitize_filename` returns a string free of the fixed unsafe characters,
with no two consecutive underscores, non-empty, and of length at most the
maximum unless it is the `"video"` fallback (the fallback is returned even
when the maximum is below 5, so "length ≤ maximum" alone fails — see the
counterexample); and the upload path's trace, hence its object key, is
unchanged under any change of the resolved record's description: the key is
built from `video_id` alone and `sanitize_filename` plays no part in it. -/
theorem sanitize_filename_spec :
    (∀ desc max_length,
      ∀ c ∈ (sanitize_filename desc max_length).toList, c ∉ unsafe_chars) ∧
    (∀ desc max_length,
      hasDoubleUnderscore (sanitize_filename desc max_length).toList = false) ∧
    (∀ desc max_length, (sanitize_filename desc max_length).length ≤ max_length ∨
      sanitize_filename desc max_length = "video") ∧
    (∀ desc max_length, sanitize_filename desc max_length ≠ "") ∧
    (∀ (env : Env) (vd : VideoData) (dsc : Option String) (body : ParseAndUploadRequest),
      (tryBlock { env with crawler := Except.ok (some vd) } body).2 =
      (tryBlock { env with crawler := Except.ok (some { vd with desc := dsc }) } body).2) :=
  ⟨fun desc ml => (sanitize_props desc ml).1,
   fun desc ml => (sanitize_props desc ml).2.1,
   fun desc ml => (sanitize_props desc ml).2.2.1,
   fun desc ml => (sanitize_props desc ml).2.2.2,
   tryBlock_trace_desc_indep⟩

/-- Counterexample to C8 as stated: with maximum length 0 the result is the
fallback `"video"`, whose length 5 exceeds the maximum. -/
theorem sanitize_length_exceeds_max : ¬ ((sanitize_filename "a" 0).length ≤ 0) := by
  decide

/-- C9: any quality string other than "high" and "low" — "watermark" or any
arbitrary string — is not rejected; the selection falls through to the
`else` branch and applies the watermark chain exactly as for "watermark". -/
theorem unknown_quality_uses_watermark_chain (q : String) (u : VideoUrls)
    (h1 : q ≠ "high") (h2 : q ≠ "low") :
    selectDownloadUrl q u = pyOr u.wm_video_url_HQ u.wm_video_url ∧
    selectDownloadUrl q u = selectDownloadUrl "watermark" u := by
  constructor <;> simp [selectDownloadUrl, h1, h2]

/-- Witness for C9 at the undocumented quality string "medium". -/
theorem unknown_quality_uses_watermark_chain_app :
    selectDownloadUrl "medium" ⟨some "a", some "b", some "c", some "d"⟩ =
      pyOr (some "c") (some "d") ∧
    selectDownloadUrl "medium" ⟨some "a", some "b", some "c", some "d"⟩ =
      selectDownloadUrl "watermark" ⟨some "a", some "b", some "c", some "d"⟩ :=
  unknown_quality_uses_watermark_chain "medium" ⟨some "a", some "b", some "c", some "d"⟩
    (by decide) (by decide)

/-- C10: the list and presign endpoints take no auth input at all (their
definitions have no auth parameter) and never produce a 401: every outcome
is a 200 built from the store call's result or a 500 wrapping the store
call's exception. -/
theorem read_endpoints_no_auth_check (env : StoreEnv) (pfx path : String)
    (max_keys expires_in : Nat) :
    (∀ detail, list_r2_videos env pfx max_keys ≠ ListResult.httpError 401 detail) ∧
    (∀ detail, get_video_download_url env path expires_in ≠
      UrlResult.httpError 401 detail) ∧
    ((∃ n vs, list_r2_videos env pfx max_keys = ListResult.ok 200 n vs) ∨
     (∃ m, list_r2_videos env pfx max_keys =
        ListResult.httpError 500 ("获取列表失败: " ++ m))) ∧
    ((∃ u2, get_video_download_url env path expires_in =
        UrlResult.ok 200 path u2 expires_in) ∨
     (∃ m, get_video_download_url env path expires_in =
        UrlResult.httpError 500 ("生成链接失败: " ++ m))) := by
  have hl : (∃ n vs, list_r2_videos env pfx max_keys = ListResult.ok 200 n vs) ∨
      (∃ m, list_r2_videos env pfx max_keys =
        ListResult.httpError 500 ("获取列表失败: " ++ m)) := by
    rcases hc : env.list_objects_v2 pfx max_keys with m | objs
    · right
      exact ⟨m, by rw [list_r2_videos, hc]⟩
    · left
      exact ⟨(objs.map projectObj).length, objs.map projectObj, by rw [list_r2_videos, hc]⟩
  have hp : (∃ u2, get_video_download_url env path expires_in =
        UrlResult.ok 200 path u2 expires_in) ∨
      (∃ m, get_video_download_url env path expires_in =
        UrlResult.httpError 500 ("生成链接失败: " ++ m)) := by
    rcases hc : env.generate_presigned path expires_in with m | url
    · right
      exact ⟨m, by rw [get_video_download_url, hc]⟩
    · left
      exact ⟨url, by rw [get_video_download_url, hc]⟩
  refine ⟨?_, ?_, hl, hp⟩
  · intro detail hcon
    rcases hl with ⟨n, vs, h⟩ | ⟨m, h⟩ <;> rw [h] at hcon <;> simp at hcon
  · intro detail hcon
    rcases hp with ⟨u2, h⟩ | ⟨m, h⟩ <;> rw [h] at hcon <;> simp at hcon

end R2Upload
